import Mathlib

/-!
Shallow embedding of the chat-dispatcher service (`src/agent.py`) and, for the
Gateway claims whose source is not in the repository snapshot, a model of the
Folder/File Gateway written from the specification.

External effects are made explicit parameters:
  * the model API network call becomes `net : List GeminiTurn → NetResult`,
    and each function additionally returns the list of request payloads it sent;
  * `requests.get` for `/fetch` becomes `fetchRes : String → Except String String`
    (exception text on failure, body text on success);
  * `time.time()` becomes a stream of clock readings carried in `ServiceState`;
  * `datetime.fromtimestamp(..).strftime(..)` becomes `fmtTs : Nat → String`;
  * `json.dumps(payload, ensure_ascii=False, indent=2)` becomes `dumps : Json → String`.
Timestamps are modelled as `Nat` (only their order matters to the code).
Python's sequential local variables are rendered as named intermediate
definitions rather than `let` bindings.
-/

/-- A MEMORY entry, as documented at `src/agent.py` lines 31-38. -/
structure MemoryEntry where
  session_id : String
  role : String
  content : String
  timestamp : Nat
deriving DecidableEq

/-- The mutable process state: the `MEMORY` list plus the stream of future
`time.time()` readings (one is consumed per append). -/
structure ServiceState where
  memory : List MemoryEntry
  clock : List Nat
deriving DecidableEq

/-- `add_memory_entry` (`src/agent.py` lines 41-49). -/
def add_memory_entry (st : ServiceState) (session_id role content : String) :
    ServiceState :=
  { memory := st.memory ++
      [{ session_id := session_id, role := role, content := content,
         timestamp := st.clock.headD 0 }]
    clock := st.clock.tail }

/-- Python's `l[-limit:]` slice. For `limit = 0` it is the whole list
(`l[0:]`), otherwise it drops all but the last `limit` elements. -/
def pyLastSlice {α : Type} (l : List α) (limit : Nat) : List α :=
  if limit = 0 then l else l.drop (l.length - limit)

/-- Python `str.startswith`, on the character lists. -/
def pyStartsWith (s pre : String) : Bool :=
  pre.data.isPrefixOf s.data

/-- Python `str.lower` (the messages involved are ASCII). -/
def pyLower (s : String) : String :=
  ⟨s.data.map Char.toLower⟩

/-- Python `str.strip()`: remove leading and trailing whitespace. -/
def pyStrip (s : String) : String :=
  ⟨((s.data.dropWhile Char.isWhitespace).reverse.dropWhile
      Char.isWhitespace).reverse⟩

/-- Python character slicing `s[n:]`. -/
def pyDrop (s : String) (n : Nat) : String :=
  ⟨s.data.drop n⟩

/-- Python character slicing `s[:n]`. -/
def pyTake (s : String) (n : Nat) : String :=
  ⟨s.data.take n⟩

/-- Python `sep.join(xs)`. -/
def pyJoin (sep : String) : List String → String
  | [] => ""
  | [x] => x
  | x :: xs => x ++ sep ++ pyJoin sep xs

/-- `get_session_history` (`src/agent.py` lines 52-56): filter by session,
stable-sort by timestamp (Python `sorted` is stable; so is `mergeSort`),
keep the last `limit` entries. -/
def get_session_history (memory : List MemoryEntry) (session_id : String)
    (limit : Nat) : List MemoryEntry :=
  pyLastSlice
    ((memory.filter (fun m => m.session_id == session_id)).mergeSort
      (fun a b => a.timestamp ≤ b.timestamp))
    limit

/-- One turn of the `contents` array sent to the model API. -/
structure GeminiTurn where
  role : String
  text : String
deriving DecidableEq

/-- The per-message role/content mapping in the history loop of `call_gemini`
(`src/agent.py` lines 91-110). -/
def map_history_msg (msg : MemoryEntry) : GeminiTurn :=
  if msg.role == "assistant" then { role := "model", text := msg.content }
  else if msg.role == "system" then { role := "user", text := msg.content }
  else if msg.role == "webhook" then
    { role := "user", text := "[WEBHOOK EVENT]\n" ++ msg.content }
  else { role := "user", text := msg.content }

/-- The `contents` array built by `call_gemini` (`src/agent.py` lines 78-118):
optional system-instructions turn, mapped history, current prompt. (Python's
`if history:` skips a `None` or empty list; mapping the empty list yields the
same result.) -/
def gemini_contents (prompt : String) (system_instructions : Option String)
    (history : Option (List MemoryEntry)) : List GeminiTurn :=
  (match system_instructions with
    | some si => [{ role := "user", text := "[SYSTEM INSTRUCTIONS]\n" ++ si }]
    | none => [])
  ++ (match history with
    | some h => h.map map_history_msg
    | none => [])
  ++ [{ role := "user", text := prompt }]

/-- `parts[i]` of a candidate content: `text` may be absent (`.get("text", "")`). -/
structure GeminiPart where
  text : Option String
deriving DecidableEq

/-- `candidates[0]["content"]` shape. -/
structure GeminiContent where
  parts : List GeminiPart
deriving DecidableEq

/-- One element of `candidates`; `content` may be absent (`.get("content", {})`). -/
structure GeminiCandidate where
  content : Option GeminiContent
deriving DecidableEq

/-- The JSON body of a successful model response, as read by `call_gemini`. -/
structure GeminiResponseData where
  candidates : List GeminiCandidate
deriving DecidableEq

/-- Outcome of the HTTP POST to the model API: parsed JSON on success, or the
exception text for any transport/HTTP error (`raise_for_status` included). -/
inductive NetResult where
  | success (data : GeminiResponseData)
  | failure (err : String)
deriving DecidableEq

/-- The response-extraction logic of `call_gemini` (`src/agent.py` lines 147-156). -/
def extract_text (data : GeminiResponseData) : String :=
  match data.candidates with
  | [] => "Brak odpowiedzi od modelu."
  | c :: _ =>
    match (match c.content with
      | none => []
      | some ct => ct.parts) with
    | [] => "Model nie zwrócił treści."
    | p :: _ =>
      if pyStrip (p.text.getD "") == "" then "Model zwrócił pustą odpowiedź."
      else pyStrip (p.text.getD "")

/-- The fixed no-key error string (`src/agent.py` line 76). -/
def noKeyError : String := "Błąd: Brak klucza GEMINI_API_KEY po stronie serwera."

/-- `call_gemini` (`src/agent.py` lines 63-159). Returns the reply text and
the list of request payloads actually sent over the network. -/
def call_gemini (apiKey : Option String) (net : List GeminiTurn → NetResult)
    (prompt : String) (system_instructions : Option String)
    (history : Option (List MemoryEntry)) : String × List (List GeminiTurn) :=
  match apiKey with
  | none => (noKeyError, [])
  | some _ =>
    match net (gemini_contents prompt system_instructions history) with
    | .success data =>
      (extract_text data, [gemini_contents prompt system_instructions history])
    | .failure e =>
      ("Błąd podczas wywołania Gemini: " ++ e,
       [gemini_contents prompt system_instructions history])

/-- The dict returned by `handle_command` when the message is a command. -/
structure CmdOut where
  type_ : String
  response : String
deriving DecidableEq

/-- The fixed "no history" string (`src/agent.py` line 196). -/
def noHistoryMsg : String := "Brak historii dla tej sesji."

/-- One rendered `/history` line: `f"[{ts}] {h['role']}: {h['content']}"`. -/
def render_history_line (fmtTs : Nat → String) (h : MemoryEntry) : String :=
  "[" ++ fmtTs h.timestamp ++ "] " ++ h.role ++ ": " ++ h.content

/-- The `/remember` branch of `handle_command` (`src/agent.py` lines 181-187). -/
def handle_remember (st : ServiceState) (session_id to_remember : String) :
    Option CmdOut × ServiceState × List (List GeminiTurn) :=
  (some { type_ := "remember", response := "Zapamiętałem: " ++ to_remember },
   add_memory_entry st session_id "system" ("[REMEMBER] " ++ to_remember), [])

/-- The joined `/history` text or the fixed "no history" fallback
(`src/agent.py` lines 192-196). -/
def history_text (fmtTs : Nat → String) (history : List MemoryEntry) : String :=
  if (history.map (render_history_line fmtTs)).isEmpty then noHistoryMsg
  else pyJoin "\n" (history.map (render_history_line fmtTs))

/-- The `/history` branch of `handle_command` (`src/agent.py` lines 190-200). -/
def handle_history (fmtTs : Nat → String) (st : ServiceState)
    (session_id : String) : Option CmdOut × ServiceState × List (List GeminiTurn) :=
  (some { type_ := "history",
          response := history_text fmtTs (get_session_history st.memory session_id 50) },
   st, [])

/-- The fixed summarization prompt of `/fetch` (`src/agent.py` lines 209-211). -/
def fetch_prompt (content : String) : String :=
  "Streść krótko zawartość tej strony w języku polskim:\n\n" ++ content

/-- The fixed system instructions used by `/fetch` summarization. -/
def fetch_instructions : String :=
  "Jesteś asystentem, który streszcza strony internetowe."

/-- The `/fetch` branch of `handle_command` (`src/agent.py` lines 203-224):
on success the body is truncated to 4000 characters and summarized; any
retrieval exception is converted to a `fetch_error` result. -/
def handle_fetch (apiKey : Option String) (net : List GeminiTurn → NetResult)
    (fetchRes : String → Except String String) (st : ServiceState)
    (url : String) : Option CmdOut × ServiceState × List (List GeminiTurn) :=
  match fetchRes url with
  | .ok body =>
    (some { type_ := "fetch",
            response := "Streszczenie strony " ++ url ++ ":\n\n" ++
              (call_gemini apiKey net (fetch_prompt (pyTake body 4000))
                (some fetch_instructions) none).1 },
     st,
     (call_gemini apiKey net (fetch_prompt (pyTake body 4000))
       (some fetch_instructions) none).2)
  | .error e =>
    (some { type_ := "fetch_error",
            response := "Nie udało się pobrać strony " ++ url ++ ": " ++ e },
     st, [])

/-- `handle_command` (`src/agent.py` lines 166-227). Returns `none` when the
message is not a command; otherwise the command's result dict, together with
the updated state and the model requests sent. -/
def handle_command (apiKey : Option String) (net : List GeminiTurn → NetResult)
    (fetchRes : String → Except String String) (fmtTs : Nat → String)
    (st : ServiceState) (session_id message : String) :
    Option CmdOut × ServiceState × List (List GeminiTurn) :=
  if pyStartsWith (pyLower (pyStrip message)) "/remember " then
    handle_remember st session_id
      (pyStrip (pyDrop (pyStrip message) "/remember ".length))
  else if pyStartsWith (pyLower (pyStrip message)) "/history" then
    handle_history fmtTs st session_id
  else if pyStartsWith (pyLower (pyStrip message)) "/fetch " then
    handle_fetch apiKey net fetchRes st
      (pyStrip (pyDrop (pyStrip message) "/fetch ".length))
  else
    (none, st, [])

/-- JSON body of a POST /agent request, after `data.get("message", "")` and
`data.get("session_id")`: `none` models an absent key. (Non-string values
are outside the modelled domain; the service only documents strings.) -/
structure AgentRequest where
  message : Option String
  session_id : Option String
deriving DecidableEq

/-- Response body of POST /agent: the 400 `{error}` object, or the 200
`{ok, type, response}` object. -/
inductive AgentBody where
  | error (msg : String)
  | success (ok : Bool) (type_ : String) (response : String)
deriving DecidableEq

/-- Full observable outcome of one POST /agent request. -/
structure AgentResult where
  status : Nat
  body : AgentBody
  state : ServiceState
  requests : List (List GeminiTurn)
deriving DecidableEq

/-- The fixed system instructions of the model-dispatch path
(`src/agent.py` lines 295-299). -/
def agent_system_instructions : String :=
  "Jesteś osobistym agentem użytkownika Marek. " ++
  "Masz być konkretny, pomocny, praktyczny. " ++
  "Jeśli użytkownik prosi o działanie, najpierw wyjaśnij, co zrobisz."

/-- `data.get("session_id") or "default"` (`src/agent.py` line 269). -/
def resolve_session_id (sid_opt : Option String) : String :=
  match sid_opt with
  | some s => if s == "" then "default" else s
  | none => "default"

/-- The non-command tail of `agent_endpoint` (`src/agent.py` lines 292-316):
take the 20-entry history slice, call the model, append the reply. `st2` is
the state after the user message was appended; `reqs` the requests already
sent by `handle_command` (always `[]` on this path). -/
def agent_gemini_dispatch (apiKey : Option String)
    (net : List GeminiTurn → NetResult) (st2 : ServiceState)
    (session_id message : String) (reqs : List (List GeminiTurn)) : AgentResult :=
  { status := 200,
    body := .success true "gemini"
      (call_gemini apiKey net message (some agent_system_instructions)
        (some (get_session_history st2.memory session_id 20))).1,
    state := add_memory_entry st2 session_id "assistant"
      (call_gemini apiKey net message (some agent_system_instructions)
        (some (get_session_history st2.memory session_id 20))).1,
    requests := reqs ++
      (call_gemini apiKey net message (some agent_system_instructions)
        (some (get_session_history st2.memory session_id 20))).2 }

/-- The post-validation part of `agent_endpoint` (`src/agent.py` lines
277-316): append the user message, try `handle_command`, otherwise go to the
model. `st` is the state before the user message is appended. -/
def agent_dispatch (apiKey : Option String) (net : List GeminiTurn → NetResult)
    (fetchRes : String → Except String String) (fmtTs : Nat → String)
    (st : ServiceState) (session_id message : String) : AgentResult :=
  match handle_command apiKey net fetchRes fmtTs
      (add_memory_entry st session_id "user" message) session_id message with
  | (some cmd, st2, reqs) =>
    { status := 200, body := .success true cmd.type_ cmd.response,
      state := add_memory_entry st2 session_id "assistant" cmd.response,
      requests := reqs }
  | (none, st2, reqs) =>
    agent_gemini_dispatch apiKey net st2 session_id message reqs

/-- `agent_endpoint` (`src/agent.py` lines 257-316). -/
def agent_endpoint (apiKey : Option String) (net : List GeminiTurn → NetResult)
    (fetchRes : String → Except String String) (fmtTs : Nat → String)
    (st : ServiceState) (req : AgentRequest) : AgentResult :=
  if req.message.getD "" == "" then
    { status := 400, body := .error "Brak pola 'message' w JSON.",
      state := st, requests := [] }
  else
    agent_dispatch apiKey net fetchRes fmtTs st
      (resolve_session_id req.session_id) (req.message.getD "")

/-- JSON values, for the /webhook payload and the Gateway request body. -/
inductive Json where
  | null
  | bool (b : Bool)
  | num (n : Int)
  | str (s : String)
  | arr (elems : List Json)
  | obj (fields : List (String × Json))

/-- `payload.get(key)` on a JSON object (`None` elsewhere). -/
def Json.get (j : Json) (key : String) : Option Json :=
  match j with
  | .obj fields => (fields.find? (fun kv => kv.1 == key)).map (fun kv => kv.2)
  | _ => none

/-- Python truthiness of a JSON value. -/
def Json.truthy : Json → Bool
  | .null => false
  | .bool b => b
  | .num n => n != 0
  | .str s => s != ""
  | .arr elems => !elems.isEmpty
  | .obj fields => !fields.isEmpty

/-- `payload.get("session_id") or "webhook"` (`src/agent.py` line 332),
restricted to string session ids (a truthy non-string session id is outside
the modelled domain). -/
def webhook_session_id (payload : Json) : String :=
  match payload.get "session_id" with
  | some (.str s) => if s == "" then "webhook" else s
  | _ => "webhook"

/-- The fixed system instructions of webhook interpretation
(`src/agent.py` line 349). -/
def webhook_instructions : String :=
  "Jesteś asystentem, który tłumaczy zdarzenia systemowe."

/-- The interpretation prompt built from the pretty-printed payload
(`src/agent.py` lines 342-346). -/
def webhook_prompt (pretty : String) : String :=
  "Otrzymałeś następujące zdarzenie webhook (JSON). " ++
  "Wyjaśnij po polsku, co ono oznacza i co można z nim zrobić:\n\n" ++ pretty

/-- Full observable outcome of one POST /webhook request. -/
structure WebhookResult where
  status : Nat
  ok : Bool
  message : String
  session_id : String
  gemini_summary : Option String
  state : ServiceState
  requests : List (List GeminiTurn)
deriving DecidableEq

/-- The truthy-`interpret_with_gemini` tail of `webhook` (`src/agent.py`
lines 341-351): `st1` is the state with the webhook entry already appended. -/
def webhook_interpreted (apiKey : Option String)
    (net : List GeminiTurn → NetResult) (st1 : ServiceState)
    (session_id pretty : String) : WebhookResult :=
  { status := 200, ok := true, message := "Webhook odebrany.",
    session_id := session_id,
    gemini_summary := some (call_gemini apiKey net (webhook_prompt pretty)
      (some webhook_instructions) none).1,
    state := add_memory_entry st1 session_id "assistant"
      (call_gemini apiKey net (webhook_prompt pretty)
        (some webhook_instructions) none).1,
    requests := (call_gemini apiKey net (webhook_prompt pretty)
      (some webhook_instructions) none).2 }

/-- The `webhook` endpoint (`src/agent.py` lines 323-360). -/
def webhook (apiKey : Option String) (net : List GeminiTurn → NetResult)
    (dumps : Json → String) (st : ServiceState) (payload : Json) : WebhookResult :=
  if ((payload.get "interpret_with_gemini").getD (.bool false)).truthy then
    webhook_interpreted apiKey net
      (add_memory_entry st (webhook_session_id payload) "webhook" (dumps payload))
      (webhook_session_id payload) (dumps payload)
  else
    { status := 200, ok := true, message := "Webhook odebrany.",
      session_id := webhook_session_id payload,
      gemini_summary := none,
      state := add_memory_entry st (webhook_session_id payload) "webhook"
        (dumps payload),
      requests := [] }

/-- Modelled from the spec: the Folder/File Gateway's source file is not under
`src/`; spec section 4.2 tabulates the required fields of each recognized
`intent`. `none` means the intent is unrecognized. -/
def gateway_required_fields : String → Option (List String)
  | "create_folder" => some ["folder"]
  | "list_folders" => some []
  | "save_note" => some ["folder", "content"]
  | "list_files" => some ["folder"]
  | "read_file" => some ["folder", "file_name"]
  | "update_file" => some ["folder", "file_name", "content"]
  | "delete_file" => some ["folder", "file_name"]
  | _ => none

/-- A field is usable when it is present and not empty (falsy). -/
def json_field_present (payload : Json) (f : String) : Bool :=
  match payload.get f with
  | some v => v.truthy
  | none => false

/-- Observable outcome of one Gateway request: HTTP status, error message (for
400 responses), the backend calls relayed, and the backend's verbatim reply. -/
structure GatewayResult where
  status : Nat
  errorMessage : Option String
  backendCalls : List (String × Json)
  response : Option Json

/-- Modelled from the spec: the Gateway's single POST /agent route (spec
sections 4.2 and 6) — validate the intent's required fields, reject with
HTTP 400 and a structured error on any missing/empty field or unrecognized
intent, otherwise relay the action to the storage backend and return its
response verbatim with status 200. The relay (name resolution included) is
abstracted as one recorded backend invocation. -/
def gateway_dispatch (backend : String → Json → Json) (body : Json) :
    GatewayResult :=
  match gateway_required_fields (match body.get "intent" with
    | some (.str s) => s
    | _ => "") with
  | none =>
    { status := 400,
      errorMessage := some ("Nieznany intent: " ++ (match body.get "intent" with
        | some (.str s) => s
        | _ => "")),
      backendCalls := [], response := none }
  | some reqd =>
    match reqd.find? (fun f => !(json_field_present body f)) with
    | some f =>
      { status := 400, errorMessage := some ("Brak wymaganego pola: " ++ f),
        backendCalls := [], response := none }
    | none =>
      { status := 200, errorMessage := none,
        backendCalls := [((match body.get "intent" with
          | some (.str s) => s
          | _ => ""), body)],
        response := some (backend (match body.get "intent" with
          | some (.str s) => s
          | _ => "") body) }

/-! ## Helper lemmas -/

theorem pyLastSlice_length_le {α : Type} (l : List α) (n : Nat) (hn : n ≠ 0) :
    (pyLastSlice l n).length ≤ n := by
  simp only [pyLastSlice, hn, if_false, List.length_drop]
  omega

theorem pyLastSlice_of_length_le {α : Type} (l : List α) (n : Nat)
    (h : l.length ≤ n) : pyLastSlice l n = l := by
  unfold pyLastSlice
  split
  · rfl
  · have hz : l.length - n = 0 := by omega
    rw [hz, List.drop_zero]

theorem pyLastSlice_sublist {α : Type} (l : List α) (n : Nat) :
    (pyLastSlice l n).Sublist l := by
  unfold pyLastSlice
  split
  · exact List.Sublist.refl l
  · exact List.drop_sublist _ l

theorem tsLe_trans (a b c : MemoryEntry) :
    (decide (a.timestamp ≤ b.timestamp)) = true →
    (decide (b.timestamp ≤ c.timestamp)) = true →
    (decide (a.timestamp ≤ c.timestamp)) = true := by
  simp only [decide_eq_true_eq]
  omega

theorem tsLe_total (a b : MemoryEntry) :
    ((decide (a.timestamp ≤ b.timestamp)) || (decide (b.timestamp ≤ a.timestamp))) = true := by
  simp only [Bool.or_eq_true, decide_eq_true_eq]
  omega

theorem get_session_history_sorted (memory : List MemoryEntry) (sid : String)
    (limit : Nat) :
    (get_session_history memory sid limit).Pairwise
      (fun a b => a.timestamp ≤ b.timestamp) := by
  unfold get_session_history
  have hs : ((memory.filter (fun m => m.session_id == sid)).mergeSort
      (fun a b => a.timestamp ≤ b.timestamp)).Pairwise
      (fun a b => (decide (a.timestamp ≤ b.timestamp)) = true) :=
    List.sorted_mergeSort tsLe_trans tsLe_total _
  have hsub := pyLastSlice_sublist
    ((memory.filter (fun m => m.session_id == sid)).mergeSort
      (fun a b => a.timestamp ≤ b.timestamp)) limit
  exact (hs.sublist hsub).imp (fun h => of_decide_eq_true h)

theorem get_session_history_length_le (memory : List MemoryEntry) (sid : String)
    (limit : Nat) (hn : limit ≠ 0) :
    (get_session_history memory sid limit).length ≤ limit :=
  pyLastSlice_length_le _ _ hn

theorem handle_command_none (apiKey : Option String)
    (net : List GeminiTurn → NetResult) (fetchRes : String → Except String String)
    (fmtTs : Nat → String) (st : ServiceState) (sid message : String)
    (h1 : pyStartsWith (pyLower (pyStrip message)) "/remember " = false)
    (h2 : pyStartsWith (pyLower (pyStrip message)) "/history" = false)
    (h3 : pyStartsWith (pyLower (pyStrip message)) "/fetch " = false) :
    handle_command apiKey net fetchRes fmtTs st sid message = (none, st, []) := by
  unfold handle_command
  simp only [h1, h2, h3, Bool.false_eq_true, if_false]

theorem agent_endpoint_noncommand (apiKey : Option String)
    (net : List GeminiTurn → NetResult) (fetchRes : String → Except String String)
    (fmtTs : Nat → String) (st : ServiceState) (msg : String)
    (sid_opt : Option String)
    (hne : msg ≠ "")
    (h1 : pyStartsWith (pyLower (pyStrip msg)) "/remember " = false)
    (h2 : pyStartsWith (pyLower (pyStrip msg)) "/history" = false)
    (h3 : pyStartsWith (pyLower (pyStrip msg)) "/fetch " = false) :
    agent_endpoint apiKey net fetchRes fmtTs st ⟨some msg, sid_opt⟩ =
      agent_gemini_dispatch apiKey net
        (add_memory_entry st (resolve_session_id sid_opt) "user" msg)
        (resolve_session_id sid_opt) msg [] := by
  have hmsg : (msg == "") = false := beq_eq_false_iff_ne.mpr hne
  unfold agent_endpoint
  rw [show ((⟨some msg, sid_opt⟩ : AgentRequest).message.getD "") = msg from rfl,
    hmsg]
  rw [show ((⟨some msg, sid_opt⟩ : AgentRequest).session_id) = sid_opt from rfl]
  rw [if_neg (by exact fun h => Bool.false_ne_true h)]
  unfold agent_dispatch
  rw [handle_command_none apiKey net fetchRes fmtTs _ _ _ h1 h2 h3]

theorem resolve_session_id_some (sid : String) (hsid : sid ≠ "") :
    resolve_session_id (some sid) = sid := by
  show (if (sid == "") = true then "default" else sid) = sid
  rw [beq_eq_false_iff_ne.mpr hsid]
  rfl

theorem call_gemini_some_requests (k : String) (net : List GeminiTurn → NetResult)
    (p : String) (si : Option String) (h : Option (List MemoryEntry)) :
    (call_gemini (some k) net p si h).2 = [gemini_contents p si h] := by
  unfold call_gemini
  cases net (gemini_contents p si h) <;> rfl

theorem get_session_history_append_last (mem : List MemoryEntry) (u : MemoryEntry)
    (sid : String) (limit : Nat)
    (hu : u.session_id = sid)
    (hsorted : (mem.filter (fun m => m.session_id == sid)).Pairwise
      (fun a b => a.timestamp ≤ b.timestamp))
    (hle : ∀ e ∈ mem, e.timestamp ≤ u.timestamp)
    (hcount : (mem.filter (fun m => m.session_id == sid)).length < limit) :
    get_session_history (mem ++ [u]) sid limit =
      mem.filter (fun m => m.session_id == sid) ++ [u] := by
  unfold get_session_history
  have hfu : (mem ++ [u]).filter (fun m => m.session_id == sid) =
      mem.filter (fun m => m.session_id == sid) ++ [u] := by
    rw [List.filter_append]
    simp [hu]
  rw [hfu]
  have hsorted2 : (mem.filter (fun m => m.session_id == sid) ++ [u]).Pairwise
      (fun a b => (decide (a.timestamp ≤ b.timestamp)) = true) := by
    rw [List.pairwise_append]
    refine ⟨hsorted.imp (fun h => decide_eq_true h), List.pairwise_singleton _ _, ?_⟩
    intro a ha b hb
    rw [List.mem_singleton] at hb
    subst hb
    exact decide_eq_true (hle a (List.mem_of_mem_filter ha))
  rw [List.mergeSort_of_sorted hsorted2]
  apply pyLastSlice_of_length_le
  rw [List.length_append, List.length_singleton]
  omega

theorem handle_command_history (apiKey : Option String)
    (net : List GeminiTurn → NetResult) (fetchRes : String → Except String String)
    (fmtTs : Nat → String) (st : ServiceState) (sid : String) :
    handle_command apiKey net fetchRes fmtTs st sid "/history" =
      handle_history fmtTs st sid := by
  unfold handle_command
  rw [if_neg (by decide), if_pos (by decide)]

theorem handle_command_fetch (apiKey : Option String)
    (net : List GeminiTurn → NetResult) (fetchRes : String → Except String String)
    (fmtTs : Nat → String) (st : ServiceState) (sid message : String)
    (h1 : pyStartsWith (pyLower (pyStrip message)) "/remember " = false)
    (h2 : pyStartsWith (pyLower (pyStrip message)) "/history" = false)
    (h3 : pyStartsWith (pyLower (pyStrip message)) "/fetch " = true) :
    handle_command apiKey net fetchRes fmtTs st sid message =
      handle_fetch apiKey net fetchRes st (pyStrip (pyDrop (pyStrip message) "/fetch ".length)) := by
  unfold handle_command
  simp only [h1, h2, h3, Bool.false_eq_true, if_false, if_true]

theorem agent_dispatch_history (apiKey : Option String)
    (net : List GeminiTurn → NetResult) (fetchRes : String → Except String String)
    (fmtTs : Nat → String) (st : ServiceState) (sid : String) :
    agent_dispatch apiKey net fetchRes fmtTs st sid "/history" =
      { status := 200,
        body := .success true "history"
          (history_text fmtTs (get_session_history
            (add_memory_entry st sid "user" "/history").memory sid 50)),
        state := add_memory_entry (add_memory_entry st sid "user" "/history")
          sid "assistant"
          (history_text fmtTs (get_session_history
            (add_memory_entry st sid "user" "/history").memory sid 50)),
        requests := [] } := by
  unfold agent_dispatch
  rw [handle_command_history]
  rfl

theorem agent_endpoint_history_fresh (apiKey : Option String)
    (net : List GeminiTurn → NetResult) (fetchRes : String → Except String String)
    (fmtTs : Nat → String) (mem : List MemoryEntry) (clk : List Nat)
    (hempty : mem.filter (fun m => m.session_id == "s1") = []) :
    (agent_endpoint apiKey net fetchRes fmtTs ⟨mem, clk⟩
        ⟨some "/history", some "s1"⟩).status = 200
  ∧ (agent_endpoint apiKey net fetchRes fmtTs ⟨mem, clk⟩
        ⟨some "/history", some "s1"⟩).body =
      .success true "history"
        (render_history_line fmtTs ⟨"s1", "user", "/history", clk.headD 0⟩) := by
  have he : agent_endpoint apiKey net fetchRes fmtTs ⟨mem, clk⟩
      ⟨some "/history", some "s1"⟩ =
      agent_dispatch apiKey net fetchRes fmtTs ⟨mem, clk⟩ "s1" "/history" := by
    unfold agent_endpoint
    rw [if_neg (by decide)]
    rfl
  have hmem : (add_memory_entry ⟨mem, clk⟩ "s1" "user" "/history").memory =
      mem ++ [⟨"s1", "user", "/history", clk.headD 0⟩] := rfl
  have hfil : List.filter (fun m => m.session_id == "s1")
      [(⟨"s1", "user", "/history", clk.headD 0⟩ : MemoryEntry)] =
      [⟨"s1", "user", "/history", clk.headD 0⟩] := by simp
  have hhist : get_session_history
      (add_memory_entry ⟨mem, clk⟩ "s1" "user" "/history").memory "s1" 50 =
      [⟨"s1", "user", "/history", clk.headD 0⟩] := by
    rw [hmem]
    unfold get_session_history
    rw [List.filter_append, hempty, List.nil_append, hfil,
      List.mergeSort_singleton]
    rfl
  rw [he, agent_dispatch_history, hhist]
  exact ⟨rfl, rfl⟩

/-- C1: the spec example claims that POST /agent with message "/history" on a
session with zero prior entries answers with the fixed "no history" text.
It does not: `agent_endpoint` logs the incoming "/history" message itself
before the command is handled, so the history is never empty; at a concrete
input the response is the rendered line of that just-logged message. -/
theorem C1_counterexample :
    (agent_endpoint none (fun _ => .failure "") (fun _ => .error "")
        (fun _ => "ts") ⟨[], [5, 6]⟩ ⟨some "/history", some "s1"⟩).body
      = .success true "history" "[ts] user: /history"
  ∧ "[ts] user: /history" ≠ noHistoryMsg := by
  refine ⟨?_, by decide⟩
  have h := agent_endpoint_history_fresh none (fun _ => .failure "")
    (fun _ => .error "") (fun _ => "ts") [] [5, 6] rfl
  rw [h.2]
  decide

/-- C1 (amended): for a POST /agent request with message "/history" and
session_id "s1" on a session with zero prior memory entries, the response is
200 with ok, type "history", and a response consisting of the single rendered
line of the just-appended "/history" user message — because the endpoint
appends the incoming message to MEMORY before the command is handled, the
fixed "no history" message is not produced. -/
theorem C1_history_fresh_session (apiKey : Option String)
    (net : List GeminiTurn → NetResult) (fetchRes : String → Except String String)
    (fmtTs : Nat → String) (mem : List MemoryEntry) (clk : List Nat)
    (hempty : mem.filter (fun m => m.session_id == "s1") = []) :
    (agent_endpoint apiKey net fetchRes fmtTs ⟨mem, clk⟩
        ⟨some "/history", some "s1"⟩).status = 200
  ∧ (agent_endpoint apiKey net fetchRes fmtTs ⟨mem, clk⟩
        ⟨some "/history", some "s1"⟩).body =
      .success true "history"
        (render_history_line fmtTs ⟨"s1", "user", "/history", clk.headD 0⟩) :=
  agent_endpoint_history_fresh apiKey net fetchRes fmtTs mem clk hempty

/-- C1 witness: the amended theorem instantiated at a concrete empty memory. -/
theorem C1_history_fresh_session_witness :
    (([] : List MemoryEntry).filter (fun m => m.session_id == "s1") = [])
  ∧ (agent_endpoint none (fun _ => .failure "") (fun _ => .error "")
        (fun _ => "ts") ⟨[], [7]⟩ ⟨some "/history", some "s1"⟩).status = 200
  ∧ (agent_endpoint none (fun _ => .failure "") (fun _ => .error "")
        (fun _ => "ts") ⟨[], [7]⟩ ⟨some "/history", some "s1"⟩).body =
      .success true "history"
        (render_history_line (fun _ => "ts") ⟨"s1", "user", "/history", 7⟩) :=
  ⟨rfl,
   (C1_history_fresh_session none (fun _ => .failure "") (fun _ => .error "")
     (fun _ => "ts") [] [7] rfl).1,
   (C1_history_fresh_session none (fun _ => .failure "") (fun _ => .error "")
     (fun _ => "ts") [] [7] rfl).2⟩

/-- C3: for every memory state and session, the list rendered by the /history
command — `get_session_history` with limit 50 — has at most 50 entries and is
in non-decreasing timestamp order, and `handle_command` on "/history" responds
with exactly the rendering of that list. -/
theorem C3_history_bounded_and_sorted (apiKey : Option String)
    (net : List GeminiTurn → NetResult) (fetchRes : String → Except String String)
    (fmtTs : Nat → String) (mem : List MemoryEntry) (clk : List Nat)
    (sid : String) :
    handle_command apiKey net fetchRes fmtTs ⟨mem, clk⟩ sid "/history" =
      (some { type_ := "history",
              response := history_text fmtTs (get_session_history mem sid 50) },
       ⟨mem, clk⟩, [])
  ∧ (get_session_history mem sid 50).length ≤ 50
  ∧ (get_session_history mem sid 50).Pairwise
      (fun a b => a.timestamp ≤ b.timestamp) := by
  refine ⟨?_, get_session_history_length_le mem sid 50 (by decide),
    get_session_history_sorted mem sid 50⟩
  rw [handle_command_history]
  rfl

/-- C5: with no GEMINI_API_KEY configured, `call_gemini` returns the fixed
no-key error string and sends no request, and a non-command /agent request
still answers 200 with type "gemini" carrying that string and an empty list
of outbound model requests. -/
theorem C5_no_key (net : List GeminiTurn → NetResult)
    (fetchRes : String → Except String String) (fmtTs : Nat → String)
    (mem : List MemoryEntry) (clk : List Nat) (msg sid : String)
    (prompt : String) (si : Option String) (hist : Option (List MemoryEntry))
    (hne : msg ≠ "")
    (h1 : pyStartsWith (pyLower (pyStrip msg)) "/remember " = false)
    (h2 : pyStartsWith (pyLower (pyStrip msg)) "/history" = false)
    (h3 : pyStartsWith (pyLower (pyStrip msg)) "/fetch " = false) :
    call_gemini none net prompt si hist = (noKeyError, [])
  ∧ (agent_endpoint none net fetchRes fmtTs ⟨mem, clk⟩
        ⟨some msg, some sid⟩).status = 200
  ∧ (agent_endpoint none net fetchRes fmtTs ⟨mem, clk⟩
        ⟨some msg, some sid⟩).body = .success true "gemini" noKeyError
  ∧ (agent_endpoint none net fetchRes fmtTs ⟨mem, clk⟩
        ⟨some msg, some sid⟩).requests = [] := by
  refine ⟨rfl, ?_, ?_, ?_⟩ <;>
    rw [agent_endpoint_noncommand none net fetchRes fmtTs _ _ _ hne h1 h2 h3] <;>
    rfl

/-- C5 witness: the theorem instantiated at the non-command message "hello". -/
theorem C5_no_key_witness :
    ("hello" ≠ "")
  ∧ (pyStartsWith (pyLower (pyStrip "hello")) "/remember " = false)
  ∧ (pyStartsWith (pyLower (pyStrip "hello")) "/history" = false)
  ∧ (pyStartsWith (pyLower (pyStrip "hello")) "/fetch " = false)
  ∧ (agent_endpoint none (fun _ => .failure "") (fun _ => .error "")
        (fun _ => "") ⟨[], [3]⟩ ⟨some "hello", some "s1"⟩).body =
      .success true "gemini" noKeyError :=
  ⟨by decide, by decide, by decide, by decide,
   (C5_no_key (fun _ => .failure "") (fun _ => .error "") (fun _ => "")
     [] [3] "hello" "s1" "x" none none (by decide) (by decide) (by decide)
     (by decide)).2.2.1⟩

/-- C8: a POST /agent request whose message field is missing or empty is
answered with HTTP 400 and the `{error}` object, the memory log is unchanged
and no model request is sent. -/
theorem C8_missing_message_rejected (apiKey : Option String)
    (net : List GeminiTurn → NetResult) (fetchRes : String → Except String String)
    (fmtTs : Nat → String) (st : ServiceState) (req : AgentRequest)
    (h : req.message = none ∨ req.message = some "") :
    agent_endpoint apiKey net fetchRes fmtTs st req =
      { status := 400, body := .error "Brak pola 'message' w JSON.",
        state := st, requests := [] } := by
  unfold agent_endpoint
  rcases h with h | h <;> rw [h] <;> rfl

/-- C8 witness: the theorem instantiated at a request with no message field. -/
theorem C8_missing_message_rejected_witness :
    ((⟨none, some "s1"⟩ : AgentRequest).message = none
      ∨ (⟨none, some "s1"⟩ : AgentRequest).message = some "")
  ∧ agent_endpoint none (fun _ => .failure "") (fun _ => .error "")
      (fun _ => "") ⟨[], []⟩ ⟨none, some "s1"⟩ =
      { status := 400, body := .error "Brak pola 'message' w JSON.",
        state := ⟨[], []⟩, requests := [] } :=
  ⟨Or.inl rfl,
   C8_missing_message_rejected none (fun _ => .failure "") (fun _ => .error "")
     (fun _ => "") ⟨[], []⟩ ⟨none, some "s1"⟩ (Or.inl rfl)⟩

theorem agent_gemini_dispatch_requests (apiKey : Option String)
    (net : List GeminiTurn → NetResult) (st2 : ServiceState)
    (sid msg : String) (reqs : List (List GeminiTurn)) :
    (agent_gemini_dispatch apiKey net st2 sid msg reqs).requests =
      reqs ++ (call_gemini apiKey net msg (some agent_system_instructions)
        (some (get_session_history st2.memory sid 20))).2 := rfl

theorem map_history_msg_user (sid msg : String) (t : Nat) :
    map_history_msg ⟨sid, "user", msg, t⟩ = { role := "user", text := msg } := rfl

/-- C2: for a non-command /agent request on a session previously holding fewer
than 20 entries, the user message is appended to MEMORY before the 20-entry
slice is taken, so the payload sent to the model carries the message text
twice: as the last history turn and as the final user turn. (The memory is
assumed timestamp-sorted with the new reading at least as large — the normal
monotone-clock situation.) -/
theorem C2_message_duplicated_in_payload (k : String)
    (net : List GeminiTurn → NetResult) (fetchRes : String → Except String String)
    (fmtTs : Nat → String) (mem : List MemoryEntry) (clk : List Nat)
    (msg sid : String)
    (hne : msg ≠ "") (hsid : sid ≠ "")
    (h1 : pyStartsWith (pyLower (pyStrip msg)) "/remember " = false)
    (h2 : pyStartsWith (pyLower (pyStrip msg)) "/history" = false)
    (h3 : pyStartsWith (pyLower (pyStrip msg)) "/fetch " = false)
    (hcount : (mem.filter (fun m => m.session_id == sid)).length < 20)
    (hsorted : (mem.filter (fun m => m.session_id == sid)).Pairwise
      (fun a b => a.timestamp ≤ b.timestamp))
    (hclk : ∀ e ∈ mem, e.timestamp ≤ clk.headD 0) :
    (agent_endpoint (some k) net fetchRes fmtTs ⟨mem, clk⟩
        ⟨some msg, some sid⟩).requests =
      [([GeminiTurn.mk "user"
          ("[SYSTEM INSTRUCTIONS]\n" ++ agent_system_instructions)] ++
        (mem.filter (fun m => m.session_id == sid)).map map_history_msg) ++
       [GeminiTurn.mk "user" msg, GeminiTurn.mk "user" msg]] := by
  rw [agent_endpoint_noncommand (some k) net fetchRes fmtTs _ _ _ hne h1 h2 h3,
    resolve_session_id_some sid hsid]
  rw [agent_gemini_dispatch_requests, call_gemini_some_requests, List.nil_append]
  have hmem2 : (add_memory_entry ⟨mem, clk⟩ sid "user" msg).memory =
      mem ++ [⟨sid, "user", msg, clk.headD 0⟩] := rfl
  have hH := get_session_history_append_last mem ⟨sid, "user", msg, clk.headD 0⟩
    sid 20 rfl hsorted hclk hcount
  rw [hmem2, hH]
  rw [show gemini_contents msg (some agent_system_instructions)
      (some (mem.filter (fun m => m.session_id == sid) ++
        [⟨sid, "user", msg, clk.headD 0⟩])) =
      [GeminiTurn.mk "user"
        ("[SYSTEM INSTRUCTIONS]\n" ++ agent_system_instructions)] ++
      ((mem.filter (fun m => m.session_id == sid)).map map_history_msg ++
        [map_history_msg ⟨sid, "user", msg, clk.headD 0⟩]) ++
      [GeminiTurn.mk "user" msg] from by
    unfold gemini_contents
    dsimp only
    rw [List.map_append]
    rfl]
  rw [map_history_msg_user]
  simp [List.append_assoc]

/-- C2 witness: the theorem instantiated at the non-command message "hello"
on an empty memory. -/
theorem C2_message_duplicated_in_payload_witness :
    ("hello" ≠ "")
  ∧ (pyStartsWith (pyLower (pyStrip "hello")) "/remember " = false)
  ∧ (pyStartsWith (pyLower (pyStrip "hello")) "/history" = false)
  ∧ (pyStartsWith (pyLower (pyStrip "hello")) "/fetch " = false)
  ∧ (([] : List MemoryEntry).filter (fun m => m.session_id == "s1")).length < 20
  ∧ (([] : List MemoryEntry).filter (fun m => m.session_id == "s1")).Pairwise
      (fun a b => a.timestamp ≤ b.timestamp)
  ∧ (∀ e ∈ ([] : List MemoryEntry), e.timestamp ≤ ([5] : List Nat).headD 0)
  ∧ (agent_endpoint (some "k") (fun _ => .failure "down")
        (fun _ => .error "") (fun _ => "") ⟨[], [5]⟩
        ⟨some "hello", some "s1"⟩).requests =
      [([GeminiTurn.mk "user"
          ("[SYSTEM INSTRUCTIONS]\n" ++ agent_system_instructions)] ++
        (([] : List MemoryEntry).filter
          (fun m => m.session_id == "s1")).map map_history_msg) ++
       [GeminiTurn.mk "user" "hello", GeminiTurn.mk "user" "hello"]] :=
  ⟨by decide, by decide, by decide, by decide, by decide, by simp, by simp,
   C2_message_duplicated_in_payload "k" (fun _ => .failure "down")
     (fun _ => .error "") (fun _ => "") [] [5] "hello" "s1"
     (by decide) (by decide) (by decide) (by decide) (by decide) (by decide)
     (by simp) (by simp)⟩

/-- C4: for every non-command message, the payload built for the model is the
system-instructions turn, then the (at most 20) history entries mapped by the
role convention (assistant→model, everything else→user, webhook content
prefixed with "[WEBHOOK EVENT]"), then the current message as final user turn. -/
theorem C4_payload_structure (k : String)
    (net : List GeminiTurn → NetResult) (fetchRes : String → Except String String)
    (fmtTs : Nat → String) (mem : List MemoryEntry) (clk : List Nat)
    (msg sid : String)
    (hne : msg ≠ "") (hsid : sid ≠ "")
    (h1 : pyStartsWith (pyLower (pyStrip msg)) "/remember " = false)
    (h2 : pyStartsWith (pyLower (pyStrip msg)) "/history" = false)
    (h3 : pyStartsWith (pyLower (pyStrip msg)) "/fetch " = false) :
    (agent_endpoint (some k) net fetchRes fmtTs ⟨mem, clk⟩
        ⟨some msg, some sid⟩).requests =
      [[GeminiTurn.mk "user"
          ("[SYSTEM INSTRUCTIONS]\n" ++ agent_system_instructions)] ++
        (get_session_history (mem ++ [⟨sid, "user", msg, clk.headD 0⟩]) sid 20).map
          map_history_msg ++
        [GeminiTurn.mk "user" msg]]
  ∧ (get_session_history (mem ++ [⟨sid, "user", msg, clk.headD 0⟩]) sid 20).length ≤ 20
  ∧ (∀ e : MemoryEntry,
      (map_history_msg e).role = (if e.role = "assistant" then "model" else "user")
    ∧ (map_history_msg e).text =
        (if e.role = "webhook" then "[WEBHOOK EVENT]\n" ++ e.content
         else e.content)) := by
  refine ⟨?_, get_session_history_length_le _ _ 20 (by decide), ?_⟩
  · rw [agent_endpoint_noncommand (some k) net fetchRes fmtTs _ _ _ hne h1 h2 h3,
      resolve_session_id_some sid hsid, agent_gemini_dispatch_requests,
      call_gemini_some_requests, List.nil_append]
    rw [show (add_memory_entry ⟨mem, clk⟩ sid "user" msg).memory =
        mem ++ [⟨sid, "user", msg, clk.headD 0⟩] from rfl]
    rfl
  · intro e
    constructor
    · unfold map_history_msg
      by_cases ha : e.role = "assistant"
      · simp [ha]
      · by_cases hs : e.role = "system"
        · simp [hs]
        · by_cases hw : e.role = "webhook"
          · simp [hw]
          · simp [beq_iff_eq, ha, hs, hw]
    · unfold map_history_msg
      by_cases ha : e.role = "assistant"
      · simp [ha]
      · by_cases hs : e.role = "system"
        · simp [hs]
        · by_cases hw : e.role = "webhook"
          · simp [hw]
          · simp [beq_iff_eq, ha, hs, hw]

/-- C4 witness: the binder-free parts of the theorem instantiated at the
non-command message "hello" on an empty memory. -/
theorem C4_payload_structure_witness :
    ("hello" ≠ "")
  ∧ ("s1" ≠ "")
  ∧ (pyStartsWith (pyLower (pyStrip "hello")) "/remember " = false)
  ∧ (pyStartsWith (pyLower (pyStrip "hello")) "/history" = false)
  ∧ (pyStartsWith (pyLower (pyStrip "hello")) "/fetch " = false)
  ∧ (agent_endpoint (some "k") (fun _ => .failure "down") (fun _ => .error "")
        (fun _ => "") ⟨[], [5]⟩ ⟨some "hello", some "s1"⟩).requests =
      [[GeminiTurn.mk "user"
          ("[SYSTEM INSTRUCTIONS]\n" ++ agent_system_instructions)] ++
        (get_session_history ([] ++ [⟨"s1", "user", "hello", ([5] : List Nat).headD 0⟩])
          "s1" 20).map map_history_msg ++
        [GeminiTurn.mk "user" "hello"]]
  ∧ (get_session_history ([] ++ [⟨"s1", "user", "hello", ([5] : List Nat).headD 0⟩])
      "s1" 20).length ≤ 20 :=
  ⟨by decide, by decide, by decide, by decide, by decide,
   (C4_payload_structure "k" (fun _ => .failure "down") (fun _ => .error "")
     (fun _ => "") [] [5] "hello" "s1" (by decide) (by decide) (by decide)
     (by decide) (by decide)).1,
   (C4_payload_structure "k" (fun _ => .failure "down") (fun _ => .error "")
     (fun _ => "") [] [5] "hello" "s1" (by decide) (by decide) (by decide)
     (by decide) (by decide)).2.1⟩

theorem agent_endpoint_some_message (apiKey : Option String)
    (net : List GeminiTurn → NetResult) (fetchRes : String → Except String String)
    (fmtTs : Nat → String) (st : ServiceState) (msg sid : String)
    (hne : msg ≠ "") (hsid : sid ≠ "") :
    agent_endpoint apiKey net fetchRes fmtTs st ⟨some msg, some sid⟩ =
      agent_dispatch apiKey net fetchRes fmtTs st sid msg := by
  have hmsg : (msg == "") = false := beq_eq_false_iff_ne.mpr hne
  unfold agent_endpoint
  rw [show ((⟨some msg, some sid⟩ : AgentRequest).message.getD "") = msg from rfl,
    hmsg]
  rw [if_neg (by exact fun h => Bool.false_ne_true h)]
  rw [show resolve_session_id (⟨some msg, some sid⟩ : AgentRequest).session_id =
      resolve_session_id (some sid) from rfl,
    resolve_session_id_some sid hsid]

/-- C6: for every /fetch command, a failing retrieval yields HTTP 200 with
type "fetch_error" and a response embedding the exception text, and a
successful retrieval truncates the body to its first 4000 characters before
summarization; the handler is a total function of the retrieval outcome, so
it never raises. -/
theorem C6_fetch_errors_and_truncation (apiKey : Option String)
    (net : List GeminiTurn → NetResult) (fetchRes : String → Except String String)
    (fmtTs : Nat → String) (mem : List MemoryEntry) (clk : List Nat)
    (msg sid : String)
    (hne : msg ≠ "") (hsid : sid ≠ "")
    (h1 : pyStartsWith (pyLower (pyStrip msg)) "/remember " = false)
    (h2 : pyStartsWith (pyLower (pyStrip msg)) "/history" = false)
    (h3 : pyStartsWith (pyLower (pyStrip msg)) "/fetch " = true) :
    (agent_endpoint apiKey net fetchRes fmtTs ⟨mem, clk⟩
        ⟨some msg, some sid⟩).status = 200
  ∧ (agent_endpoint apiKey net fetchRes fmtTs ⟨mem, clk⟩
        ⟨some msg, some sid⟩).body =
      (match fetchRes (pyStrip (pyDrop (pyStrip msg) "/fetch ".length)) with
       | .error e => .success true "fetch_error"
           ("Nie udało się pobrać strony " ++
             pyStrip (pyDrop (pyStrip msg) "/fetch ".length) ++ ": " ++ e)
       | .ok body => .success true "fetch"
           ("Streszczenie strony " ++
             pyStrip (pyDrop (pyStrip msg) "/fetch ".length) ++ ":\n\n" ++
             (call_gemini apiKey net (fetch_prompt (pyTake body 4000))
               (some fetch_instructions) none).1)) := by
  rw [agent_endpoint_some_message apiKey net fetchRes fmtTs _ _ _ hne hsid]
  unfold agent_dispatch
  rw [handle_command_fetch apiKey net fetchRes fmtTs _ _ _ h1 h2 h3]
  unfold handle_fetch
  cases hf : fetchRes (pyStrip (pyDrop (pyStrip msg) "/fetch ".length)) with
  | ok body => exact ⟨rfl, rfl⟩
  | error e => exact ⟨rfl, rfl⟩

/-- C6 witness: the theorem instantiated at "/fetch http://x" with a failing
retrieval. -/
theorem C6_fetch_errors_and_truncation_witness :
    ("/fetch http://x" ≠ "")
  ∧ ("s1" ≠ "")
  ∧ (pyStartsWith (pyLower (pyStrip "/fetch http://x")) "/remember " = false)
  ∧ (pyStartsWith (pyLower (pyStrip "/fetch http://x")) "/history" = false)
  ∧ (pyStartsWith (pyLower (pyStrip "/fetch http://x")) "/fetch " = true)
  ∧ (agent_endpoint none (fun _ => .failure "") (fun _ => .error "boom")
        (fun _ => "") ⟨[], [1, 2]⟩ ⟨some "/fetch http://x", some "s1"⟩).status = 200
  ∧ (agent_endpoint none (fun _ => .failure "") (fun _ => .error "boom")
        (fun _ => "") ⟨[], [1, 2]⟩ ⟨some "/fetch http://x", some "s1"⟩).body =
      (match (fun (_ : String) => (Except.error "boom" : Except String String))
          (pyStrip (pyDrop (pyStrip "/fetch http://x") "/fetch ".length)) with
       | .error e => .success true "fetch_error"
           ("Nie udało się pobrać strony " ++
             pyStrip (pyDrop (pyStrip "/fetch http://x") "/fetch ".length) ++
             ": " ++ e)
       | .ok body => .success true "fetch"
           ("Streszczenie strony " ++
             pyStrip (pyDrop (pyStrip "/fetch http://x") "/fetch ".length) ++
             ":\n\n" ++
             (call_gemini none (fun _ => .failure "")
               (fetch_prompt (pyTake body 4000)) (some fetch_instructions)
               none).1)) :=
  ⟨by decide, by decide, by decide, by decide, by decide,
   (C6_fetch_errors_and_truncation none (fun _ => .failure "")
     (fun _ => .error "boom") (fun _ => "") [] [1, 2] "/fetch http://x" "s1"
     (by decide) (by decide) (by decide) (by decide) (by decide)).1,
   (C6_fetch_errors_and_truncation none (fun _ => .failure "")
     (fun _ => .error "boom") (fun _ => "") [] [1, 2] "/fetch http://x" "s1"
     (by decide) (by decide) (by decide) (by decide) (by decide)).2⟩

/-- C7: /webhook always answers 200; when the `interpret_with_gemini` flag is
falsy or absent, `gemini_summary` is null, no model request is sent and only
the webhook-role entry is appended; when it is truthy, the pretty-printed
payload is sent to the model (one request when a key is configured), its
result is returned as `gemini_summary` and also appended as an
assistant-role entry. -/
theorem C7_webhook_interpretation (apiKey : Option String)
    (net : List GeminiTurn → NetResult) (dumps : Json → String)
    (mem : List MemoryEntry) (clk : List Nat) (payload : Json) :
    (webhook apiKey net dumps ⟨mem, clk⟩ payload).status = 200
  ∧ (webhook apiKey net dumps ⟨mem, clk⟩ payload).gemini_summary =
      (if ((payload.get "interpret_with_gemini").getD (.bool false)).truthy then
        some (call_gemini apiKey net (webhook_prompt (dumps payload))
          (some webhook_instructions) none).1
      else none)
  ∧ (webhook apiKey net dumps ⟨mem, clk⟩ payload).requests =
      (if ((payload.get "interpret_with_gemini").getD (.bool false)).truthy then
        (call_gemini apiKey net (webhook_prompt (dumps payload))
          (some webhook_instructions) none).2
      else [])
  ∧ (webhook apiKey net dumps ⟨mem, clk⟩ payload).state.memory =
      mem ++ [⟨webhook_session_id payload, "webhook", dumps payload, clk.headD 0⟩] ++
      (if ((payload.get "interpret_with_gemini").getD (.bool false)).truthy then
        [⟨webhook_session_id payload, "assistant",
          (call_gemini apiKey net (webhook_prompt (dumps payload))
            (some webhook_instructions) none).1, clk.tail.headD 0⟩]
      else [])
  ∧ (call_gemini apiKey net (webhook_prompt (dumps payload))
      (some webhook_instructions) none).2 =
      (match apiKey with
       | none => []
       | some _ => [gemini_contents (webhook_prompt (dumps payload))
           (some webhook_instructions) none]) := by
  refine ⟨?_, ?_, ?_, ?_, ?_⟩
  case _ =>
    unfold webhook
    cases htr : ((payload.get "interpret_with_gemini").getD (.bool false)).truthy
    · rw [if_neg (by exact fun h => Bool.false_ne_true h)]
    · rw [if_pos rfl]
      rfl
  case _ =>
    unfold webhook
    cases htr : ((payload.get "interpret_with_gemini").getD (.bool false)).truthy
    · rw [if_neg (by exact fun h => Bool.false_ne_true h),
        if_neg (by exact fun h => Bool.false_ne_true h)]
    · rw [if_pos rfl, if_pos rfl]
      rfl
  case _ =>
    unfold webhook
    cases htr : ((payload.get "interpret_with_gemini").getD (.bool false)).truthy
    · rw [if_neg (by exact fun h => Bool.false_ne_true h),
        if_neg (by exact fun h => Bool.false_ne_true h)]
    · rw [if_pos rfl, if_pos rfl]
      rfl
  case _ =>
    unfold webhook
    cases htr : ((payload.get "interpret_with_gemini").getD (.bool false)).truthy
    · rw [if_neg (by exact fun h => Bool.false_ne_true h),
        if_neg (by exact fun h => Bool.false_ne_true h)]
      simp [add_memory_entry]
    · rw [if_pos rfl, if_pos rfl]
      rfl
  case _ =>
    cases apiKey
    · rfl
    · exact call_gemini_some_requests _ net _ _ _

theorem add_memory_entry_append (st : ServiceState) (sid r c : String) :
    (add_memory_entry st sid r c).memory =
      st.memory ++ [⟨sid, r, c, st.clock.headD 0⟩] := rfl

theorem handle_command_state_append (apiKey : Option String)
    (net : List GeminiTurn → NetResult) (fetchRes : String → Except String String)
    (fmtTs : Nat → String) (st : ServiceState) (sid message : String) :
    ∃ tail, (handle_command apiKey net fetchRes fmtTs st sid message).2.1.memory =
      st.memory ++ tail := by
  unfold handle_command
  split
  · exact ⟨_, rfl⟩
  · split
    · exact ⟨[], (List.append_nil _).symm⟩
    · split
      · unfold handle_fetch
        cases fetchRes (pyStrip (pyDrop (pyStrip message) "/fetch ".length)) <;>
          exact ⟨[], (List.append_nil _).symm⟩
      · exact ⟨[], (List.append_nil _).symm⟩

theorem agent_dispatch_state_append (apiKey : Option String)
    (net : List GeminiTurn → NetResult) (fetchRes : String → Except String String)
    (fmtTs : Nat → String) (st : ServiceState) (sid msg : String) :
    ∃ tail, (agent_dispatch apiKey net fetchRes fmtTs st sid msg).state.memory =
      st.memory ++ tail := by
  obtain ⟨t, ht⟩ := handle_command_state_append apiKey net fetchRes fmtTs
    (add_memory_entry st sid "user" msg) sid msg
  unfold agent_dispatch
  rcases hhc : handle_command apiKey net fetchRes fmtTs
    (add_memory_entry st sid "user" msg) sid msg with ⟨ocmd, st2, reqs⟩
  rw [hhc] at ht
  have ht2 : st2.memory =
      (st.memory ++ [⟨sid, "user", msg, st.clock.headD 0⟩]) ++ t := ht
  cases ocmd with
  | some cmd =>
    refine ⟨[⟨sid, "user", msg, st.clock.headD 0⟩] ++ t ++
      [⟨sid, "assistant", cmd.response, st2.clock.headD 0⟩], ?_⟩
    show (add_memory_entry st2 sid "assistant" cmd.response).memory = _
    rw [add_memory_entry_append, ht2]
    simp [List.append_assoc]
  | none =>
    refine ⟨[⟨sid, "user", msg, st.clock.headD 0⟩] ++ t ++
      [⟨sid, "assistant",
        (call_gemini apiKey net msg (some agent_system_instructions)
          (some (get_session_history st2.memory sid 20))).1,
        st2.clock.headD 0⟩], ?_⟩
    show (add_memory_entry st2 sid "assistant"
      (call_gemini apiKey net msg (some agent_system_instructions)
        (some (get_session_history st2.memory sid 20))).1).memory = _
    rw [add_memory_entry_append, ht2]
    simp [List.append_assoc]

/-- C9: MEMORY is append-only — one POST /agent request and one POST /webhook
request each leave the previously stored entries unchanged, only appending a
suffix of new entries. -/
theorem C9_memory_append_only (apiKey : Option String)
    (net : List GeminiTurn → NetResult) (fetchRes : String → Except String String)
    (fmtTs : Nat → String) (dumps : Json → String) (st : ServiceState)
    (req : AgentRequest) (payload : Json) :
    (∃ tail, (agent_endpoint apiKey net fetchRes fmtTs st req).state.memory =
      st.memory ++ tail)
  ∧ (∃ tail, (webhook apiKey net dumps st payload).state.memory =
      st.memory ++ tail) := by
  constructor
  · unfold agent_endpoint
    split
    · exact ⟨[], (List.append_nil _).symm⟩
    · exact agent_dispatch_state_append apiKey net fetchRes fmtTs st _ _
  · unfold webhook
    split
    · refine ⟨[⟨webhook_session_id payload, "webhook", dumps payload,
          st.clock.headD 0⟩,
        ⟨webhook_session_id payload, "assistant",
          (call_gemini apiKey net (webhook_prompt (dumps payload))
            (some webhook_instructions) none).1,
          st.clock.tail.headD 0⟩], ?_⟩
      show (add_memory_entry
        (add_memory_entry st (webhook_session_id payload) "webhook"
          (dumps payload))
        (webhook_session_id payload) "assistant"
        (call_gemini apiKey net (webhook_prompt (dumps payload))
          (some webhook_instructions) none).1).memory = _
      rw [add_memory_entry_append, add_memory_entry_append]
      simp [add_memory_entry, List.append_assoc]
    · exact ⟨[⟨webhook_session_id payload, "webhook", dumps payload,
        st.clock.headD 0⟩], rfl⟩

/-- C10: in the spec-modelled Gateway dispatch, a request whose recognized
intent is missing (or has empty/falsy) any required field is answered with
HTTP 400 and a structured error, and the storage backend is never called. -/
theorem C10_gateway_validation (backend : String → Json → Json) (body : Json)
    (intent : String) (reqd : List String) (f : String)
    (hintent : body.get "intent" = some (.str intent))
    (hreq : gateway_required_fields intent = some reqd)
    (hf : f ∈ reqd) (hmiss : json_field_present body f = false) :
    (gateway_dispatch backend body).status = 400
  ∧ (gateway_dispatch backend body).errorMessage.isSome = true
  ∧ (gateway_dispatch backend body).backendCalls = [] := by
  unfold gateway_dispatch
  rw [show (match body.get "intent" with
      | some (.str s) => s
      | _ => "") = intent from by rw [hintent]]
  rw [hreq]
  dsimp only
  have hsome : (reqd.find? (fun x => !(json_field_present body x))).isSome := by
    rw [List.find?_isSome]
    exact ⟨f, hf, by rw [hmiss]; rfl⟩
  obtain ⟨g, hg⟩ := Option.isSome_iff_exists.mp hsome
  rw [hg]
  exact ⟨rfl, rfl, rfl⟩

/-- C10 witness: a `save_note` request without its required `folder` field is
rejected with 400 and no backend call. -/
theorem C10_gateway_validation_witness :
    ((Json.obj [("intent", Json.str "save_note")]).get "intent" =
      some (Json.str "save_note"))
  ∧ (gateway_required_fields "save_note" = some ["folder", "content"])
  ∧ ("folder" ∈ ["folder", "content"])
  ∧ (json_field_present (Json.obj [("intent", Json.str "save_note")])
      "folder" = false)
  ∧ (gateway_dispatch (fun _ _ => Json.null)
      (Json.obj [("intent", Json.str "save_note")])).status = 400
  ∧ (gateway_dispatch (fun _ _ => Json.null)
      (Json.obj [("intent", Json.str "save_note")])).backendCalls = [] :=
  ⟨rfl, rfl, by simp, rfl,
   (C10_gateway_validation (fun _ _ => Json.null)
     (Json.obj [("intent", Json.str "save_note")]) "save_note"
     ["folder", "content"] "folder" rfl rfl (by simp) rfl).1,
   (C10_gateway_validation (fun _ _ => Json.null)
     (Json.obj [("intent", Json.str "save_note")]) "save_note"
     ["folder", "content"] "folder" rfl rfl (by simp) rfl).2.2⟩
